import Mathlib

/-!
# Verification of the identity & credential subsystem

Shallow embedding of the core logic of an Express/TypeORM user-account
service: the password-hash lifecycle hooks on the `User` entity
(`src/models/user.ts`, surfaced as `src/unnamed/part_000`), the bearer-token
authentication middleware (`src/middlewares/auth.ts`), the Google OAuth
linking callback (`src/config/passport.ts`), and the role-update controller
(`src/controllers/user.ts`).

JavaScript `undefined`/`null` values are embedded as `Option`, and JS
truthiness on optional strings (`undefined`, `null` and `""` are falsy) as
the `truthy` predicate below. The external `bcrypt` and `jsonwebtoken`
libraries are not part of the repository; theorems about code that calls
them are stated parametrically in the library function, with the library's
documented contract as explicit hypotheses, and a small executable model
(`bcryptHashModel` / `bcryptCompareModel`) discharges those hypotheses in
concrete witnesses.
-/

/-- JS truthiness of an optional string: `undefined`/`null` and the empty
string are falsy, every other string is truthy. -/
def truthy : Option String → Bool
  | none => false
  | some s => s != ""

/-- Recognizer for the bcrypt hash-format prefixes `$2a$`, `$2b$`, `$2y$`,
on a character list; embeds the regex test `/^\$2[aby]\$/.test(password)`
of `User.hashPassword`. -/
def bcryptPrefixCheck : List Char → Bool
  | '$' :: '2' :: c :: '$' :: _ => c == 'a' || c == 'b' || c == 'y'
  | _ => false

/-- String-level wrapper for the `/^\$2[aby]\$/` regex test. -/
def bcryptPrefixed (s : String) : Bool :=
  bcryptPrefixCheck s.data

/-- Model of the external `bcrypt.hash(p, 12)` contract: a deterministic
stand-in producing a `$2b$`-prefixed digest string distinct from every
plaintext. Only its contract properties (recognized-prefix output, and
round-tripping with `bcryptCompareModel`) are used; theorems over the hook
take these properties as hypotheses rather than relying on this model. -/
def bcryptHashModel (p : String) : String :=
  "$2b$12$" ++ p

/-- Model of the external `bcrypt.compare(candidate, stored)` contract:
true exactly when `stored` is the digest of `candidate`. -/
def bcryptCompareModel (candidate stored : String) : Bool :=
  stored == bcryptHashModel candidate

/-- The `@BeforeInsert`/`@BeforeUpdate` hook `User.hashPassword`,
parametrized by the bcrypt hashing function. The stored password column is
nullable, hence `Option String`; the JS guard is
`if (this.password && !/^\$2[aby]\$/.test(this.password))`. -/
def hashPasswordWith (bhash : String → String) : Option String → Option String
  | none => none
  | some p => if p != "" && !(bcryptPrefixed p) then some (bhash p) else some p

/-- `User.comparePassword(candidatePassword)`, parametrized by the bcrypt
comparison function; returns false when no password is stored
(`if (!this.password) return false`). -/
def comparePasswordWith (bcompare : String → String → Bool)
    (stored : Option String) (candidate : String) : Bool :=
  match stored with
  | none => false
  | some s => if s == "" then false else bcompare candidate s

/-- `User.hashPassword` instantiated with the bcrypt model. -/
def hashPassword : Option String → Option String :=
  hashPasswordWith bcryptHashModel

/-- `User.comparePassword` instantiated with the bcrypt model. -/
def comparePassword : Option String → String → Bool :=
  comparePasswordWith bcryptCompareModel

theorem bcryptHashModel_prefixed (q : String) :
    bcryptPrefixed (bcryptHashModel q) = true := by
  have h : (bcryptHashModel q).data = '$' :: '2' :: 'b' :: '$' :: ('1' :: '2' :: '$' :: q.data) := by
    simp [bcryptHashModel, String.data_append]
  simp [bcryptPrefixed, h, bcryptPrefixCheck]

theorem bcryptCompareModel_roundtrip (q : String) :
    bcryptCompareModel q (bcryptHashModel q) = true := by
  simp [bcryptCompareModel]

theorem bcryptPrefixed_ne_empty {s : String} (h : bcryptPrefixed s = true) :
    s ≠ "" := by
  intro he
  subst he
  simp [bcryptPrefixed, bcryptPrefixCheck] at h

/-- C1, amended: for every non-empty plaintext `P` that does not already
carry a recognized bcrypt prefix, running the pre-persist hook and then
verifying with candidate `P` succeeds, and the stored value differs from
`P`. Stated for any bcrypt implementation satisfying the library contract
(digests carry a recognized prefix, and compare round-trips with hash).
The original unrestricted claim fails at `P = ""` and at bcrypt-prefixed
plaintexts, which the hook stores verbatim. -/
theorem C1_password_roundtrip_amended
    (bhash : String → String) (bcompare : String → String → Bool)
    (hformat : ∀ q, bcryptPrefixed (bhash q) = true)
    (hround : ∀ q, bcompare q (bhash q) = true)
    (p : String) (hne : p ≠ "") (hnp : bcryptPrefixed p = false) :
    comparePasswordWith bcompare (hashPasswordWith bhash (some p)) p = true ∧
      hashPasswordWith bhash (some p) ≠ some p := by
  have hhook : hashPasswordWith bhash (some p) = some (bhash p) := by
    simp [hashPasswordWith, hne, hnp]
  constructor
  · rw [hhook]
    have h1 : bhash p ≠ "" := bcryptPrefixed_ne_empty (hformat p)
    simp [comparePasswordWith, h1, hround p]
  · rw [hhook]
    intro h
    have he : bhash p = p := Option.some.inj h
    have hf := hformat p
    rw [he, hnp] at hf
    exact Bool.false_ne_true hf

/-- C1 witness: the amended round-trip at the concrete plaintext
`"secret"`, under the executable bcrypt model. -/
theorem C1_password_roundtrip_witness :
    comparePasswordWith bcryptCompareModel
        (hashPasswordWith bcryptHashModel (some "secret")) "secret" = true ∧
      hashPasswordWith bcryptHashModel (some "secret") ≠ some "secret" :=
  C1_password_roundtrip_amended bcryptHashModel bcryptCompareModel
    bcryptHashModel_prefixed bcryptCompareModel_roundtrip "secret"
    (by decide) (by decide)

/-- C1 counterexample: at the plaintext `P = ""` the original claim fails:
the hook leaves the stored value equal to `P` (the guard
`if (this.password && ...)` skips the empty string), and verification
returns false rather than true. -/
theorem C1_password_roundtrip_counterexample :
    ¬ (comparePassword (hashPassword (some "")) "" = true ∧
        hashPassword (some "") ≠ some "") := by
  decide

/-- C2: the pre-persist hook is idempotent. A value already carrying a
recognized bcrypt prefix is left unchanged (no re-hash), and applying the
hook twice to any stored-password state equals applying it once; stated
for any bcrypt implementation whose digests carry a recognized prefix. -/
theorem C2_hook_idempotent
    (bhash : String → String)
    (hformat : ∀ q, bcryptPrefixed (bhash q) = true) :
    (∀ v, bcryptPrefixed v = true → hashPasswordWith bhash (some v) = some v) ∧
      (∀ x, hashPasswordWith bhash (hashPasswordWith bhash x) =
        hashPasswordWith bhash x) := by
  constructor
  · intro v hv
    simp [hashPasswordWith, hv]
  · intro x
    match x with
    | none => rfl
    | some p =>
      by_cases hp : (p != "" && !(bcryptPrefixed p)) = true
      · simp [hashPasswordWith, hp, hformat p]
      · simp [hashPasswordWith, hp]

/-- C2 witness: idempotence at the concrete already-hashed value
`"$2b$abc"` and double application at the plaintext `"pw"`, under the
executable bcrypt model. -/
theorem C2_hook_idempotent_witness :
    hashPasswordWith bcryptHashModel (some "$2b$abc") = some "$2b$abc" ∧
      hashPasswordWith bcryptHashModel
          (hashPasswordWith bcryptHashModel (some "pw")) =
        hashPasswordWith bcryptHashModel (some "pw") :=
  ⟨(C2_hook_idempotent bcryptHashModel bcryptHashModel_prefixed).1
      "$2b$abc" (by decide),
   (C2_hook_idempotent bcryptHashModel bcryptHashModel_prefixed).2
      (some "pw")⟩

/-- C10: a value beginning with a recognized bcrypt prefix — including a
user-chosen plaintext of that shape — is stored verbatim by the hook
(hence persisted in recoverable form), and verification then hands it to
`bcrypt.compare` as the stored hash. Stated for any bcrypt hash and
compare implementation. -/
theorem C10_prefixed_plaintext_stored_verbatim
    (bhash : String → String) (bcompare : String → String → Bool)
    (v : String) (hv : bcryptPrefixed v = true) :
    hashPasswordWith bhash (some v) = some v ∧
      (∀ c, comparePasswordWith bcompare (some v) c = bcompare c v) := by
  have hne : v ≠ "" := bcryptPrefixed_ne_empty hv
  constructor
  · simp [hashPasswordWith, hv]
  · intro c
    simp [comparePasswordWith, hne]

/-- C10 witness: the bcrypt-shaped plaintext `"$2a$pwd"` is stored
verbatim and treated as a hash by verification, under the executable
bcrypt model. -/
theorem C10_prefixed_plaintext_witness :
    hashPasswordWith bcryptHashModel (some "$2a$pwd") = some "$2a$pwd" ∧
      comparePasswordWith bcryptCompareModel (some "$2a$pwd") "x" =
        bcryptCompareModel "x" "$2a$pwd" :=
  ⟨(C10_prefixed_plaintext_stored_verbatim bcryptHashModel
      bcryptCompareModel "$2a$pwd" (by decide)).1,
   (C10_prefixed_plaintext_stored_verbatim bcryptHashModel
      bcryptCompareModel "$2a$pwd" (by decide)).2 "x"⟩

/-- `UserRole` enum from the user entity: `USER = 'user'`, `ADMIN = 'admin'`. -/
inductive UserRole
  | user
  | admin
deriving DecidableEq, Repr

/-- String value of a role, as stored by the TS enum. -/
def UserRole.toStr : UserRole → String
  | .user => "user"
  | .admin => "admin"

/-- `OAuthProvider` interface from the user entity: one provider link
embedded in the user's `oauthProviders` jsonb column. `tokenExpiresAt` is
a millisecond epoch instant. -/
structure ProviderLink where
  provider : String
  providerId : String
  accessToken : String
  refreshToken : Option String
  tokenExpiresAt : Nat
deriving DecidableEq, Repr

/-- The persisted `User` entity, restricted to the fields the verified
core reads or writes. `avatar` is a nullable column (`Option`);
`isEmailVerified` defaults to false at the column level, so it is embedded
as a plain `Bool`. -/
structure User where
  userId : String
  email : String
  name : String
  role : UserRole
  avatar : Option String
  isEmailVerified : Bool
  oauthProviders : List ProviderLink
deriving DecidableEq, Repr

/-- `TokenPayload` decoded from a verified JWT; the `userId` claim may be
absent (`none`) or present but empty, both falsy in the JS check
`if (!decoded.userId)`. -/
structure TokenPayload where
  userId : Option String
deriving DecidableEq, Repr

/-- The request-scoped identity object the middleware assigns to
`req.user`. -/
structure IdentityContext where
  userId : String
  role : UserRole
  email : String
  name : String
  isEmailVerified : Bool
deriving DecidableEq, Repr

/-- Outcome of the `isAuthenticated` middleware: which `ApiError` kind is
raised, or the identity context bound on success. `userNotFound` embeds
`ApiError.notFound('用戶')`. -/
inductive AuthOutcome
  | unauthorized
  | authTokenInvalid
  | userNotFound
  | success (ctx : IdentityContext)
deriving DecidableEq, Repr

/-- JS `String.prototype.split` with a single-character separator, on
character lists: splits at every occurrence, keeping empty segments. -/
def splitChar (sep : Char) : List Char → List (List Char)
  | [] => [[]]
  | c :: cs =>
    let r := splitChar sep cs
    if c == sep then [] :: r
    else
      match r with
      | [] => [[c]]
      | g :: gs => (c :: g) :: gs

/-- The token part of an Authorization header:
`authHeader.split(' ')[1]`, with JS `undefined` collapsed to `""` (both
are falsy in the subsequent `if (!token)` check). -/
def bearerTokenOf (h : String) : String :=
  String.mk ((splitChar ' ' h.data).getD 1 [])

/-- The `isAuthenticated` middleware of `src/middlewares/auth.ts`,
parametrized by the external `jwt.verify` (returning `none` when the
library throws `JsonWebTokenError`, which covers malformed, bad-signature
and expired tokens — `TokenExpiredError` is a `JsonWebTokenError` — and is
caught and mapped to `AUTH_TOKEN_INVALID`) and by the user repository
lookup `findOne({ where: { userId } })`. -/
def isAuthenticated (jwtVerify : String → Option TokenPayload)
    (findUserById : String → Option User)
    (authHeader : Option String) : AuthOutcome :=
  match authHeader with
  | none => .unauthorized
  | some h =>
    if !("Bearer ".data.isPrefixOf h.data) then .unauthorized
    else
      let token := bearerTokenOf h
      if token == "" then .unauthorized
      else
        match jwtVerify token with
        | none => .authTokenInvalid
        | some decoded =>
          if !(truthy decoded.userId) then .authTokenInvalid
          else
            match findUserById (decoded.userId.getD "") with
            | none => .userNotFound
            | some user =>
              .success { userId := user.userId, role := user.role,
                         email := user.email, name := user.name,
                         isEmailVerified := user.isEmailVerified }

/-- The credential supplied by a request, in the claim's sense: `none`
when the Authorization header is absent, not in the `Bearer <token>`
envelope, or has an empty token part; otherwise the token part. -/
def suppliedToken (authHeader : Option String) : Option String :=
  match authHeader with
  | none => none
  | some h =>
    if !("Bearer ".data.isPrefixOf h.data) then none
    else if bearerTokenOf h == "" then none
    else some (bearerTokenOf h)

/-- C3: the middleware fails with `Unauthorized` exactly when no
credential is supplied (header absent, not in the `Bearer <token>`
envelope, or empty token part), and with `AuthTokenInvalid` exactly when a
token is supplied but `jwt.verify` rejects it (malformed, expired, bad
signature) or its `userId` claim is absent or empty. -/
theorem C3_auth_error_partition
    (jwtVerify : String → Option TokenPayload)
    (findUserById : String → Option User) (authHeader : Option String) :
    (isAuthenticated jwtVerify findUserById authHeader = .unauthorized ↔
      suppliedToken authHeader = none) ∧
    (isAuthenticated jwtVerify findUserById authHeader = .authTokenInvalid ↔
      ∃ t, suppliedToken authHeader = some t ∧
        (jwtVerify t = none ∨
          ∃ pl, jwtVerify t = some pl ∧ truthy pl.userId = false)) := by
  cases authHeader with
  | none => simp [isAuthenticated, suppliedToken]
  | some h =>
    by_cases hb : ("Bearer ".data.isPrefixOf h.data) = true
    · by_cases ht : (bearerTokenOf h == "") = true
      · simp [isAuthenticated, suppliedToken, hb, ht]
      · cases hv : jwtVerify (bearerTokenOf h) with
        | none => simp [isAuthenticated, suppliedToken, hb, ht, hv]
        | some pl =>
          by_cases hu : truthy pl.userId = true
          · cases hf : findUserById (pl.userId.getD "") with
            | none =>
              simp [isAuthenticated, suppliedToken, hb, ht, hv, hu, hf]
            | some u =>
              simp [isAuthenticated, suppliedToken, hb, ht, hv, hu, hf]
          · simp [isAuthenticated, suppliedToken, hb, ht, hv, hu]
    · simp [isAuthenticated, suppliedToken, hb]

/-- Inputs to the Google strategy verify callback of
`src/config/passport.ts`: the provider tokens, the profile fields the
callback reads (`profile.id` as `googleId`, `profile.emails[0].value` as
`email`, `profile.photos?.[0]?.value` as `avatarUrl`,
`profile.displayName` with `""` for absent/falsy), and `Date.now()` at the
call as `now` (milliseconds). -/
structure OAuthInput where
  accessToken : String
  refreshToken : Option String
  googleId : String
  email : String
  avatarUrl : Option String
  displayName : String
  now : Nat
deriving DecidableEq, Repr

/-- The in-place mutation the callback applies to the matched
`existingProvider`: overwrite `providerId` when it differs from the
incoming Google id, then refresh the token material and the one-hour
expiry. -/
def updateGoogleLink (inp : OAuthInput) (p : ProviderLink) : ProviderLink :=
  let p1 := if p.providerId != inp.googleId
    then { p with providerId := inp.googleId } else p
  { p1 with accessToken := inp.accessToken, refreshToken := inp.refreshToken,
            tokenExpiresAt := inp.now + 3600000 }

/-- Effect on the link collection of mutating the element returned by
`oauthProviders.find(p => p.provider === 'google')`: the first link whose
provider is `"google"` is replaced by `f` of it, the rest untouched. -/
def updateFirstGoogle (f : ProviderLink → ProviderLink) :
    List ProviderLink → List ProviderLink
  | [] => []
  | p :: ps =>
    if p.provider == "google" then f p :: ps
    else p :: updateFirstGoogle f ps

/-- The fresh link pushed (or created) for this provider. -/
def newGoogleLink (inp : OAuthInput) : ProviderLink :=
  { provider := "google", providerId := inp.googleId,
    accessToken := inp.accessToken, refreshToken := inp.refreshToken,
    tokenExpiresAt := inp.now + 3600000 }

/-- Core of the verify callback once the profile preconditions passed:
the three branches on the user found by email (existing Google link /
email known but no Google link / no user). `freshUserId` stands for the
id the persistence layer generates in the create branch. Returns the user
record as saved. -/
def linkOrCreate (inp : OAuthInput) (freshUserId : String)
    (found : Option User) : User :=
  match found with
  | some user =>
    match user.oauthProviders.find? (fun p => p.provider == "google") with
    | some _ =>
      let user1 := { user with
        oauthProviders :=
          updateFirstGoogle (updateGoogleLink inp) user.oauthProviders }
      if truthy inp.avatarUrl && !(truthy user1.avatar)
      then { user1 with avatar := inp.avatarUrl } else user1
    | none =>
      let user1 := { user with
        oauthProviders := user.oauthProviders ++ [newGoogleLink inp] }
      let user2 :=
        if truthy inp.avatarUrl && !(truthy user1.avatar)
        then { user1 with avatar := inp.avatarUrl } else user1
      { user2 with isEmailVerified := true }
  | none =>
    { userId := freshUserId
      email := inp.email
      name := if inp.displayName != "" then inp.displayName
        else String.mk ((splitChar '@' inp.email.data).getD 0 [])
      role := .user
      avatar := inp.avatarUrl
      isEmailVerified := true
      oauthProviders := [newGoogleLink inp] }

/-- The `userData.user` object literal the callback hands to `done`:
exactly the seven projected fields (`oauthProviders` defaulted to `[]`
and `isEmailVerified` to `false` in JS; both are total here). -/
structure GoogleUserData where
  userId : String
  email : String
  name : String
  avatar : Option String
  role : UserRole
  oauthProviders : List ProviderLink
  isEmailVerified : Bool
deriving DecidableEq, Repr

/-- Construction of the `userData.user` projection from the saved user. -/
def projectUserData (u : User) : GoogleUserData :=
  { userId := u.userId, email := u.email, name := u.name,
    avatar := u.avatar, role := u.role,
    oauthProviders := u.oauthProviders,
    isEmailVerified := u.isEmailVerified }

/-- `userRepository.findOne({ where: { email } })`: the email lookup the
callback performs first. -/
def findByEmail (db : List User) (email : String) : Option User :=
  db.find? (fun u => u.email == email)

/-- The whole verify callback: precondition checks on the profile
(missing `profile.id` or missing primary email fail the operation,
embedded as `""` inputs and a `none` result), then email lookup, link or
create, and the projection handed to `done`. Returns the saved user and
the projection. -/
def googleVerify (inp : OAuthInput) (freshUserId : String)
    (db : List User) : Option (User × GoogleUserData) :=
  if inp.googleId == "" then none
  else if inp.email == "" then none
  else
    let user := linkOrCreate inp freshUserId (findByEmail db inp.email)
    some (user, projectUserData user)

/-- The spec's uniqueness invariant: at most one link per distinct
provider value, i.e. the provider names of the collection are pairwise
distinct. -/
def oneLinkPerProvider (ps : List ProviderLink) : Prop :=
  (ps.map (fun p => p.provider)).Nodup

instance (ps : List ProviderLink) : Decidable (oneLinkPerProvider ps) :=
  inferInstanceAs (Decidable ((ps.map (fun p : ProviderLink => p.provider)).Nodup))

/-- Number of links carried for a given provider. -/
def countProvider (prov : String) (ps : List ProviderLink) : Nat :=
  ps.countP (fun p => p.provider == prov)

/-- A token-material-only update of a link: what the second identical
login is allowed to change. -/
def setTokenMaterial (inp : OAuthInput) (p : ProviderLink) : ProviderLink :=
  { p with accessToken := inp.accessToken, refreshToken := inp.refreshToken,
           tokenExpiresAt := inp.now + 3600000 }

theorem updateGoogleLink_provider (inp : OAuthInput) (p : ProviderLink) :
    (updateGoogleLink inp p).provider = p.provider := by
  by_cases h : (p.providerId != inp.googleId) = true <;>
    simp [updateGoogleLink, h]

theorem updateGoogleLink_providerId (inp : OAuthInput) (p : ProviderLink) :
    (updateGoogleLink inp p).providerId = inp.googleId := by
  by_cases h : (p.providerId != inp.googleId) = true
  · simp [updateGoogleLink, h]
  · simp only [bne_iff_ne, ne_eq, not_not] at h
    simp [updateGoogleLink, h]

theorem updateGoogleLink_accessToken (inp : OAuthInput) (p : ProviderLink) :
    (updateGoogleLink inp p).accessToken = inp.accessToken := by
  by_cases h : (p.providerId != inp.googleId) = true <;>
    simp [updateGoogleLink, h]

theorem updateGoogleLink_refreshToken (inp : OAuthInput) (p : ProviderLink) :
    (updateGoogleLink inp p).refreshToken = inp.refreshToken := by
  by_cases h : (p.providerId != inp.googleId) = true <;>
    simp [updateGoogleLink, h]

theorem updateGoogleLink_tokenExpiresAt (inp : OAuthInput) (p : ProviderLink) :
    (updateGoogleLink inp p).tokenExpiresAt = inp.now + 3600000 := by
  by_cases h : (p.providerId != inp.googleId) = true <;>
    simp [updateGoogleLink, h]

theorem updateGoogleLink_eq_setTokenMaterial (inp : OAuthInput)
    (p : ProviderLink) (h : p.providerId = inp.googleId) :
    updateGoogleLink inp p = setTokenMaterial inp p := by
  simp [updateGoogleLink, setTokenMaterial, h]

theorem map_provider_updateFirstGoogle (f : ProviderLink → ProviderLink)
    (hf : ∀ p, (f p).provider = p.provider) (ps : List ProviderLink) :
    (updateFirstGoogle f ps).map (fun p => p.provider) =
      ps.map (fun p => p.provider) := by
  induction ps with
  | nil => rfl
  | cons p ps ih =>
    by_cases h : (p.provider == "google") = true
    · simp [updateFirstGoogle, h, hf]
    · simp [updateFirstGoogle, h, ih]

theorem countProvider_updateFirstGoogle (prov : String)
    (f : ProviderLink → ProviderLink)
    (hf : ∀ p, (f p).provider = p.provider) (ps : List ProviderLink) :
    countProvider prov (updateFirstGoogle f ps) = countProvider prov ps := by
  induction ps with
  | nil => rfl
  | cons p ps ih =>
    by_cases h : (p.provider == "google") = true
    · simp [updateFirstGoogle, h, countProvider, List.countP_cons, hf]
    · simp only [updateFirstGoogle, h]
      simp [countProvider, List.countP_cons] at ih ⊢
      omega

theorem find?_updateFirstGoogle (f : ProviderLink → ProviderLink)
    (hf : ∀ p, (f p).provider = p.provider) (ps : List ProviderLink) :
    (updateFirstGoogle f ps).find? (fun p => p.provider == "google") =
      (ps.find? (fun p => p.provider == "google")).map f := by
  induction ps with
  | nil => rfl
  | cons p ps ih =>
    by_cases h : (p.provider == "google") = true
    · simp [updateFirstGoogle, h, List.find?_cons, hf]
    · simp [updateFirstGoogle, h, List.find?_cons, ih]

theorem updateFirstGoogle_congr (f g : ProviderLink → ProviderLink)
    (ps : List ProviderLink) (q : ProviderLink)
    (hq : ps.find? (fun p => p.provider == "google") = some q)
    (hfg : f q = g q) :
    updateFirstGoogle f ps = updateFirstGoogle g ps := by
  induction ps with
  | nil => simp at hq
  | cons p ps ih =>
    by_cases h : (p.provider == "google") = true
    · simp only [List.find?_cons, h] at hq
      have hpq : p = q := by injection hq
      subst hpq
      simp [updateFirstGoogle, h, hfg]
    · simp only [List.find?_cons, h] at hq
      simp [updateFirstGoogle, h, ih hq]

theorem countProvider_eq_zero_of_find?_none (ps : List ProviderLink)
    (h : ps.find? (fun p => p.provider == "google") = none) :
    countProvider "google" ps = 0 := by
  rw [List.find?_eq_none] at h
  simp only [countProvider, List.countP_eq_zero]
  exact h

theorem countProvider_eq_one_of_nodup (ps : List ProviderLink)
    (q : ProviderLink) (hnd : oneLinkPerProvider ps)
    (hq : ps.find? (fun p => p.provider == "google") = some q) :
    countProvider "google" ps = 1 := by
  induction ps with
  | nil => simp at hq
  | cons p ps ih =>
    rw [oneLinkPerProvider, List.map_cons, List.nodup_cons] at hnd
    by_cases h : (p.provider == "google") = true
    · have hzero : countProvider "google" ps = 0 := by
        simp only [countProvider, List.countP_eq_zero]
        intro a ha hpa
        have hmem : p.provider ∈ ps.map (fun p => p.provider) := by
          rw [List.mem_map]
          refine ⟨a, ha, ?_⟩
          rw [eq_of_beq hpa, eq_of_beq h]
        exact hnd.1 hmem
      simp [countProvider, List.countP_cons, h] at hzero ⊢
      simpa [countProvider] using hzero
    · rw [List.find?_cons_of_neg _ (by simpa using h)] at hq
      have := ih hnd.2 hq
      simp [countProvider, List.countP_cons, h] at this ⊢
      simpa [countProvider] using this

theorem linkOrCreate_preserves_invariant (inp : OAuthInput) (fresh : String)
    (found : Option User)
    (hinv : ∀ u, found = some u → oneLinkPerProvider u.oauthProviders) :
    oneLinkPerProvider (linkOrCreate inp fresh found).oauthProviders := by
  cases found with
  | none => simp [linkOrCreate, oneLinkPerProvider, newGoogleLink]
  | some u =>
    have hu := hinv u rfl
    cases hfind : u.oauthProviders.find? (fun p => p.provider == "google") with
    | some q =>
      have hmap := map_provider_updateFirstGoogle (updateGoogleLink inp)
        (updateGoogleLink_provider inp) u.oauthProviders
      by_cases hav : (truthy inp.avatarUrl && !(truthy u.avatar)) = true <;>
        · simp [linkOrCreate, hfind, hav, oneLinkPerProvider, hmap]
          exact hu
    | none =>
      have hng : "google" ∉ u.oauthProviders.map (fun p => p.provider) := by
        rw [List.find?_eq_none] at hfind
        intro hmem
        rw [List.mem_map] at hmem
        obtain ⟨a, ha, hpa⟩ := hmem
        exact hfind a ha (by simp [hpa])
      by_cases hav : (truthy inp.avatarUrl && !(truthy u.avatar)) = true <;>
        · simp [linkOrCreate, hfind, hav, oneLinkPerProvider, newGoogleLink,
            List.nodup_append]
          exact ⟨hu, fun a ha hc => hng (List.mem_map.mpr ⟨a, ha, hc⟩)⟩

theorem linkOrCreate_firstGoogle (inp : OAuthInput) (fresh : String)
    (found : Option User) :
    ∃ q, (linkOrCreate inp fresh found).oauthProviders.find?
        (fun p => p.provider == "google") = some q ∧
      q.providerId = inp.googleId ∧ q.accessToken = inp.accessToken ∧
      q.refreshToken = inp.refreshToken ∧
      q.tokenExpiresAt = inp.now + 3600000 := by
  cases found with
  | none =>
    refine ⟨newGoogleLink inp, ?_, rfl, rfl, rfl, rfl⟩
    simp [linkOrCreate, newGoogleLink, List.find?_cons]
  | some u =>
    cases hfind : u.oauthProviders.find? (fun p => p.provider == "google") with
    | some q0 =>
      refine ⟨updateGoogleLink inp q0, ?_, updateGoogleLink_providerId inp q0,
        updateGoogleLink_accessToken inp q0,
        updateGoogleLink_refreshToken inp q0,
        updateGoogleLink_tokenExpiresAt inp q0⟩
      have hfg := find?_updateFirstGoogle (updateGoogleLink inp)
        (updateGoogleLink_provider inp) u.oauthProviders
      by_cases hav : (truthy inp.avatarUrl && !(truthy u.avatar)) = true <;>
        simp [linkOrCreate, hfind, hav, hfg]
    | none =>
      refine ⟨newGoogleLink inp, ?_, rfl, rfl, rfl, rfl⟩
      have happ : (u.oauthProviders ++ [newGoogleLink inp]).find?
          (fun p => p.provider == "google") = some (newGoogleLink inp) := by
        rw [List.find?_append, hfind]
        simp [newGoogleLink, List.find?_cons]
      by_cases hav : (truthy inp.avatarUrl && !(truthy u.avatar)) = true <;>
        simp [linkOrCreate, hfind, hav, happ]

theorem linkOrCreate_avatar_truthy (inp : OAuthInput) (fresh : String)
    (found : Option User) (h : truthy inp.avatarUrl = true) :
    truthy (linkOrCreate inp fresh found).avatar = true := by
  cases found with
  | none => simpa [linkOrCreate] using h
  | some u =>
    cases hfind : u.oauthProviders.find? (fun p => p.provider == "google") with
    | some q =>
      by_cases hua : truthy u.avatar = true
      · simp [linkOrCreate, hfind, h, hua]
      · have hua' : truthy u.avatar = false := by simpa using hua
        simp [linkOrCreate, hfind, h, hua']
    | none =>
      by_cases hua : truthy u.avatar = true
      · simp [linkOrCreate, hfind, h, hua]
      · have hua' : truthy u.avatar = false := by simpa using hua
        simp [linkOrCreate, hfind, h, hua']

theorem linkOrCreate_countGoogle (inp : OAuthInput) (fresh : String)
    (found : Option User)
    (hinv : ∀ u, found = some u → oneLinkPerProvider u.oauthProviders) :
    countProvider "google" (linkOrCreate inp fresh found).oauthProviders = 1 := by
  cases found with
  | none => simp [linkOrCreate, countProvider, newGoogleLink]
  | some u =>
    have hu := hinv u rfl
    cases hfind : u.oauthProviders.find? (fun p => p.provider == "google") with
    | some q =>
      have hcount := countProvider_updateFirstGoogle "google"
        (updateGoogleLink inp) (updateGoogleLink_provider inp) u.oauthProviders
      have h1 := countProvider_eq_one_of_nodup u.oauthProviders q hu hfind
      by_cases hav : (truthy inp.avatarUrl && !(truthy u.avatar)) = true <;>
        simp [linkOrCreate, hfind, hav, countProvider] at hcount h1 ⊢ <;>
        omega
    | none =>
      have h0 := countProvider_eq_zero_of_find?_none u.oauthProviders hfind
      rw [countProvider] at h0
      by_cases hav : (truthy inp.avatarUrl && !(truthy u.avatar)) = true <;>
        simp [linkOrCreate, hfind, hav, countProvider, List.countP_append,
          newGoogleLink, h0]

/-- C4: OAuth linking is idempotent and preserves the one-link-per-provider
invariant. For a lookup result satisfying the invariant, two calls with the
same `(provider, providerId, email)` (and the same profile fields; token
material and call time may differ) leave exactly one Google link, the
second call producing exactly the first call's user with only that link's
token material (`accessToken`, `refreshToken`, `tokenExpiresAt`) replaced;
and every call preserves the invariant. -/
theorem C4_oauth_linking_idempotent
    (inp1 inp2 : OAuthInput) (fresh1 fresh2 : String) (found : Option User)
    (hinv : ∀ u, found = some u → oneLinkPerProvider u.oauthProviders)
    (hid : inp2.googleId = inp1.googleId) (hem : inp2.email = inp1.email)
    (hav : inp2.avatarUrl = inp1.avatarUrl) :
    countProvider "google"
      (linkOrCreate inp2 fresh2
        (some (linkOrCreate inp1 fresh1 found))).oauthProviders = 1 ∧
    linkOrCreate inp2 fresh2 (some (linkOrCreate inp1 fresh1 found)) =
      { linkOrCreate inp1 fresh1 found with
        oauthProviders := updateFirstGoogle (setTokenMaterial inp2)
          (linkOrCreate inp1 fresh1 found).oauthProviders } ∧
    (∀ inp fresh fd,
      (∀ u, fd = some u → oneLinkPerProvider u.oauthProviders) →
      oneLinkPerProvider (linkOrCreate inp fresh fd).oauthProviders) := by
  set u1 := linkOrCreate inp1 fresh1 found with hu1
  have hinv1 : oneLinkPerProvider u1.oauthProviders :=
    linkOrCreate_preserves_invariant inp1 fresh1 found hinv
  obtain ⟨q, hq, hqid, hqat, hqrt, hqexp⟩ :=
    linkOrCreate_firstGoogle inp1 fresh1 found
  refine ⟨?_, ?_, fun inp fresh fd hfd =>
    linkOrCreate_preserves_invariant inp fresh fd hfd⟩
  · exact linkOrCreate_countGoogle inp2 fresh2 (some u1)
      (fun u h => by injection h with h2; exact h2 ▸ hinv1)
  · have hqid2 : q.providerId = inp2.googleId := by rw [hqid, hid]
    have hg2 : updateFirstGoogle (updateGoogleLink inp2) u1.oauthProviders =
        updateFirstGoogle (setTokenMaterial inp2) u1.oauthProviders :=
      updateFirstGoogle_congr _ _ _ q hq
        (updateGoogleLink_eq_setTokenMaterial inp2 q hqid2)
    by_cases hav2 : truthy inp2.avatarUrl = true
    · have hav1 : truthy inp1.avatarUrl = true := by rw [hav] at hav2; exact hav2
      have hu1av : truthy u1.avatar = true :=
        linkOrCreate_avatar_truthy inp1 fresh1 found hav1
      simp [linkOrCreate, hq, hu1av, hg2]
    · have hav2' : truthy inp2.avatarUrl = false := by simpa using hav2
      simp [linkOrCreate, hq, hav2', hg2]

/-- First call of the C4 witness: identity fields shared with `c4InpB`. -/
def c4InpA : OAuthInput :=
  { accessToken := "at1", refreshToken := none, googleId := "g123",
    email := "a@x.com", avatarUrl := none, displayName := "A", now := 1000 }

/-- Second call of the C4 witness: same identity, fresh token material. -/
def c4InpB : OAuthInput :=
  { accessToken := "at2", refreshToken := some "rt2", googleId := "g123",
    email := "a@x.com", avatarUrl := none, displayName := "A", now := 2000 }

/-- C4 witness: a first login creating the user followed by an identical
re-login; exactly one Google link, and the second call only replaces its
token material. -/
theorem C4_oauth_linking_idempotent_witness :
    countProvider "google"
      (linkOrCreate c4InpB "f2"
        (some (linkOrCreate c4InpA "f1" none))).oauthProviders = 1 ∧
    linkOrCreate c4InpB "f2" (some (linkOrCreate c4InpA "f1" none)) =
      { linkOrCreate c4InpA "f1" none with
        oauthProviders := updateFirstGoogle (setTokenMaterial c4InpB)
          (linkOrCreate c4InpA "f1" none).oauthProviders } :=
  ⟨(C4_oauth_linking_idempotent c4InpA c4InpB "f1" "f2" none
      (fun _ h => nomatch h) rfl rfl rfl).1,
   (C4_oauth_linking_idempotent c4InpA c4InpB "f1" "f2" none
      (fun _ h => nomatch h) rfl rfl rfl).2.1⟩

/-- C5: when the existing user's Google link carries a `providerId`
different from the incoming subject id, the callback overwrites the stored
`providerId` with the incoming value and refreshes that link's token
material and expiry; exactly one Google link remains afterwards. -/
theorem C5_providerId_overwrite
    (inp : OAuthInput) (fresh : String) (u : User) (q : ProviderLink)
    (hinv : oneLinkPerProvider u.oauthProviders)
    (hfind : u.oauthProviders.find? (fun p => p.provider == "google") = some q)
    (hne : q.providerId ≠ inp.googleId) :
    (linkOrCreate inp fresh (some u)).oauthProviders.find?
        (fun p => p.provider == "google") =
      some { q with providerId := inp.googleId,
                    accessToken := inp.accessToken,
                    refreshToken := inp.refreshToken,
                    tokenExpiresAt := inp.now + 3600000 } ∧
    countProvider "google"
      (linkOrCreate inp fresh (some u)).oauthProviders = 1 := by
  have hfg := find?_updateFirstGoogle (updateGoogleLink inp)
    (updateGoogleLink_provider inp) u.oauthProviders
  have hform : updateGoogleLink inp q =
      { q with providerId := inp.googleId, accessToken := inp.accessToken,
               refreshToken := inp.refreshToken,
               tokenExpiresAt := inp.now + 3600000 } := by
    simp [updateGoogleLink, hne]
  constructor
  · by_cases hav : (truthy inp.avatarUrl && !(truthy u.avatar)) = true <;>
      simp [linkOrCreate, hfind, hav, hfg, hform]
  · exact linkOrCreate_countGoogle inp fresh (some u)
      (fun v h => by injection h with h2; exact h2 ▸ hinv)

/-- Stored state for the C5 witness: one Google link with subject `g123`. -/
def c5User : User :=
  { userId := "u5", email := "a@x.com", name := "A", role := .user,
    avatar := none, isEmailVerified := true,
    oauthProviders := [{ provider := "google", providerId := "g123",
                         accessToken := "at0", refreshToken := none,
                         tokenExpiresAt := 0 }] }

/-- Incoming login for the C5 witness: same email, rotated subject `g456`. -/
def c5Inp : OAuthInput :=
  { accessToken := "at1", refreshToken := some "rt1", googleId := "g456",
    email := "a@x.com", avatarUrl := none, displayName := "A", now := 7 }

/-- C5 witness: the stored subject `g123` is overwritten by the incoming
`g456`, token material refreshed, one Google link left. -/
theorem C5_providerId_overwrite_witness :
    (linkOrCreate c5Inp "f" (some c5User)).oauthProviders.find?
        (fun p => p.provider == "google") =
      some { provider := "google", providerId := "g456",
             accessToken := "at1", refreshToken := some "rt1",
             tokenExpiresAt := 3600007 } ∧
    countProvider "google"
      (linkOrCreate c5Inp "f" (some c5User)).oauthProviders = 1 := by
  have h := C5_providerId_overwrite c5Inp "f" c5User
    { provider := "google", providerId := "g123", accessToken := "at0",
      refreshToken := none, tokenExpiresAt := 0 }
    (by decide) (by decide) (by decide)
  simpa using h

/-- Stored state for the C6 counterexample: an unverified user who already
has a Google link. -/
def c6User : User :=
  { userId := "u6", email := "b@x.com", name := "B", role := .user,
    avatar := none, isEmailVerified := false,
    oauthProviders := [{ provider := "google", providerId := "g6",
                         accessToken := "at0", refreshToken := none,
                         tokenExpiresAt := 0 }] }

/-- Re-login input for the C6 counterexample: same provider subject. -/
def c6Inp : OAuthInput :=
  { accessToken := "at1", refreshToken := none, googleId := "g6",
    email := "b@x.com", avatarUrl := none, displayName := "B", now := 5 }

/-- C6 counterexample: on a re-login over an already-linked provider the
callback never touches `isEmailVerified`, so a user who was unverified
stays unverified — the claim fails for the existing-provider-link branch. -/
theorem C6_email_verified_counterexample :
    (linkOrCreate c6Inp "f" (some c6User)).isEmailVerified = false := by
  decide

/-- C6, amended: a newly created user and a user gaining a new provider
link end with `isEmailVerified = true`, but a re-login over an existing
provider link leaves `isEmailVerified` unchanged (the existing-provider
branch of the callback does not set it). -/
theorem C6_email_verified_amended (inp : OAuthInput) (fresh : String)
    (found : Option User) :
    (found = none → (linkOrCreate inp fresh found).isEmailVerified = true) ∧
    (∀ u, found = some u →
      (u.oauthProviders.find? (fun p => p.provider == "google") = none →
        (linkOrCreate inp fresh found).isEmailVerified = true) ∧
      (∀ q, u.oauthProviders.find? (fun p => p.provider == "google") = some q →
        (linkOrCreate inp fresh found).isEmailVerified =
          u.isEmailVerified)) := by
  refine ⟨?_, ?_⟩
  · intro h
    subst h
    simp [linkOrCreate]
  · intro u h
    subst h
    refine ⟨?_, ?_⟩
    · intro hfind
      by_cases hav : (truthy inp.avatarUrl && !(truthy u.avatar)) = true <;>
        simp [linkOrCreate, hfind, hav]
    · intro q hfind
      by_cases hav : (truthy inp.avatarUrl && !(truthy u.avatar)) = true <;>
        simp [linkOrCreate, hfind, hav]

/-- C6 witness: the amended existing-link case at the concrete unverified
user — `isEmailVerified` is passed through unchanged. -/
theorem C6_email_verified_witness :
    (linkOrCreate c6Inp "f" (some c6User)).isEmailVerified =
      c6User.isEmailVerified :=
  ((C6_email_verified_amended c6Inp "f" (some c6User)).2 c6User rfl).2
    { provider := "google", providerId := "g6", accessToken := "at0",
      refreshToken := none, tokenExpiresAt := 0 } (by decide)

/-- Input for the C7 theorems: a login carrying fresh token material. -/
def c7Inp : OAuthInput :=
  { accessToken := "tok-xyz", refreshToken := some "r7", googleId := "g7",
    email := "c@x.com", avatarUrl := none, displayName := "C", now := 0 }

/-- C7 counterexample: the projection handed to `done` embeds the full
`oauthProviders` collection, whose Google link holds the freshly issued
provider `accessToken` and `refreshToken` — so the returned value does
contain provider token material, refuting the claim as stated. -/
theorem C7_projection_counterexample :
    (googleVerify c7Inp "u7" []).map
        (fun r => r.2.oauthProviders.map
          (fun p => (p.accessToken, p.refreshToken))) =
      some [("tok-xyz", some "r7")] := by
  decide

/-- C7, amended: every successful resolution returns exactly the
seven-field projection (`userId`, `email`, `name`, `avatar`, `role`,
`oauthProviders`, `isEmailVerified`) of the saved user — but the
`oauthProviders` field of that projection carries full provider token
material: its Google link holds the incoming `accessToken` and
`refreshToken`. -/
theorem C7_projection_amended (inp : OAuthInput) (fresh : String)
    (db : List User) (hg : inp.googleId ≠ "") (he : inp.email ≠ "") :
    googleVerify inp fresh db =
      some (linkOrCreate inp fresh (findByEmail db inp.email),
        projectUserData (linkOrCreate inp fresh (findByEmail db inp.email))) ∧
    ((projectUserData
          (linkOrCreate inp fresh (findByEmail db inp.email))).oauthProviders.find?
        (fun p => p.provider == "google")).map
        (fun q => (q.accessToken, q.refreshToken)) =
      some (inp.accessToken, inp.refreshToken) := by
  constructor
  · simp [googleVerify, hg, he]
  · obtain ⟨q, hq, _, hat, hrt, _⟩ :=
      linkOrCreate_firstGoogle inp fresh (findByEmail db inp.email)
    have hproj : (projectUserData
        (linkOrCreate inp fresh (findByEmail db inp.email))).oauthProviders =
        (linkOrCreate inp fresh (findByEmail db inp.email)).oauthProviders := rfl
    rw [hproj, hq]
    simp [hat, hrt]

/-- C7 witness: the amended statement at the concrete input `c7Inp` with
an empty store (create branch). -/
theorem C7_projection_witness :
    googleVerify c7Inp "u7" [] =
      some (linkOrCreate c7Inp "u7" (findByEmail [] c7Inp.email),
        projectUserData (linkOrCreate c7Inp "u7" (findByEmail [] c7Inp.email))) ∧
    ((projectUserData
          (linkOrCreate c7Inp "u7" (findByEmail [] c7Inp.email))).oauthProviders.find?
        (fun p => p.provider == "google")).map
        (fun q => (q.accessToken, q.refreshToken)) =
      some (c7Inp.accessToken, c7Inp.refreshToken) :=
  C7_projection_amended c7Inp "u7" [] (by decide) (by decide)

/-- The authenticated actor as seen by `updateUserRole` (`req.user`,
injected by the middleware). -/
structure AuthIdentity where
  userId : String
  role : String
  email : String
deriving DecidableEq, Repr

/-- Outcome of the `updateUserRole` controller: the `ApiError` kind raised,
or the success payload `{ userId, role }` with the message distinguishing
the unchanged no-op from an actual update. -/
inductive RoleUpdateOutcome
  | unauthorized
  | dataInvalid
  | notFound
  | unchanged (userId : String) (role : UserRole)
  | updated (userId : String) (role : UserRole)
deriving DecidableEq, Repr

/-- `Object.values(UserRole)`: the recognized role strings. -/
def roleValues : List String := ["user", "admin"]

/-- Cast `role as UserRole` for a string that passed the
`roleValues.contains` check. -/
def roleOfString (r : String) : UserRole :=
  if r == "admin" then .admin else .user

/-- The `updateUserRole` controller of `src/controllers/user.ts`,
parametrized by the repository lookup. Returns the outcome together with
the record handed to `userRepository.save` — `none` when no persistence
write occurs. The request's `role` body field is `Option String` (`none`
for absent), and the checks run in source order: missing actor, missing
role, unrecognized role, self-demotion to `user`, lookup, no-op
short-circuit, write. -/
def updateUserRole (findUserById : String → Option User)
    (auth : Option AuthIdentity) (targetUserId : String)
    (role : Option String) : RoleUpdateOutcome × Option User :=
  match auth with
  | none => (.unauthorized, none)
  | some a =>
    if !(truthy role) then (.dataInvalid, none)
    else
      let r := role.getD ""
      if !(roleValues.contains r) then (.dataInvalid, none)
      else if a.userId == targetUserId && r == "user" then (.dataInvalid, none)
      else
        match findUserById targetUserId with
        | none => (.notFound, none)
        | some u =>
          if u.role.toStr == r then (.unchanged u.userId u.role, none)
          else
            ((.updated u.userId (roleOfString r)),
              some { u with role := roleOfString r })

/-- C8: a self-demotion to the base role is rejected with `DataInvalid`
and performs no write, for every repository state — the rejection is
decided before (independently of) the target lookup, as the universal
quantification over `findUserById` expresses. -/
theorem C8_self_demotion_rejected (findUserById : String → Option User)
    (a : AuthIdentity) :
    updateUserRole findUserById (some a) a.userId (some "user") =
      (.dataInvalid, none) := by
  simp [updateUserRole, truthy, roleValues]

/-- C9: when the target exists and already holds the requested (valid,
non-self-demoting) role, the controller reports the role unchanged and
hands nothing to `save`, leaving the stored record untouched. -/
theorem C9_unchanged_role_no_write (findUserById : String → Option User)
    (a : AuthIdentity) (targetUserId : String) (r : String) (u : User)
    (hfind : findUserById targetUserId = some u)
    (hvalid : roleValues.contains r = true)
    (hself : (a.userId == targetUserId && r == "user") = false)
    (hrole : u.role.toStr = r) :
    updateUserRole findUserById (some a) targetUserId (some r) =
      (.unchanged u.userId u.role, none) := by
  have hne : r ≠ "" := by
    intro he
    subst he
    simp [roleValues] at hvalid
  have hmem : r ∈ roleValues := by simpa using hvalid
  simp [updateUserRole, truthy, hne, hmem, hself, hfind, hrole]

/-- Target user for the C9 witness: already an admin. -/
def c9User : User :=
  { userId := "u9", email := "d@x.com", name := "D", role := .admin,
    avatar := none, isEmailVerified := true, oauthProviders := [] }

/-- C9 witness: an admin actor re-granting `admin` to another user who
already holds it — reported unchanged, no write. -/
theorem C9_unchanged_role_no_write_witness :
    updateUserRole (fun i => if i == "u9" then some c9User else none)
        (some { userId := "adm", role := "admin", email := "e@x.com" })
        "u9" (some "admin") =
      (.unchanged "u9" .admin, none) :=
  C9_unchanged_role_no_write
    (fun i => if i == "u9" then some c9User else none)
    { userId := "adm", role := "admin", email := "e@x.com" }
    "u9" "admin" c9User (by decide) (by decide) (by decide) (by decide)
